import Mathlib

/-!
Verification of the configuration model of `mdbook-linkcheck`
(`src/config.rs`): the `Config` data type, its defaults, its
regex-list serde codec, its `PartialEq` instance and `should_skip`.

The `regex` crate is an external dependency; we model it by a small
regular-expression engine: a pattern compiler (`parseRE`) producing an
abstract syntax tree, and an unanchored matcher based on Brzozowski
derivatives.  A compiled `Regex` carries its original source text and
the invariant (true of every value the crate can produce) that the
syntax tree is the result of compiling that text.
-/

/-- Abstract syntax of compiled regular expressions, the model of the
`regex` crate's compiled program. -/
inductive RE where
  | emptyset : RE
  | epsilon : RE
  | char (c : Char) : RE
  | anyChar : RE
  | concat (r s : RE) : RE
  | alt (r s : RE) : RE
  | star (r : RE) : RE
deriving DecidableEq, Repr

/-- Does the expression accept the empty string? -/
def RE.nullable : RE → Bool
  | .emptyset => false
  | .epsilon => true
  | .char _ => false
  | .anyChar => false
  | .concat r s => r.nullable && s.nullable
  | .alt r s => r.nullable || s.nullable
  | .star _ => true

/-- Brzozowski derivative of an expression with respect to one character. -/
def RE.deriv : RE → Char → RE
  | .emptyset, _ => .emptyset
  | .epsilon, _ => .emptyset
  | .char c, a => if a = c then .epsilon else .emptyset
  | .anyChar, _ => .epsilon
  | .concat r s, a =>
      if r.nullable then .alt (.concat (r.deriv a) s) (s.deriv a)
      else .concat (r.deriv a) s
  | .alt r s, a => .alt (r.deriv a) (s.deriv a)
  | .star r, a => .concat (r.deriv a) (.star r)

/-- Anchored (whole-input) match via iterated derivatives. -/
def RE.matchList (r : RE) : List Char → Bool
  | [] => r.nullable
  | c :: cs => (r.deriv c).matchList cs

/-- Unanchored search, the semantics of the crate's `Regex::is_match`:
the pattern may match any substring of the input. -/
def RE.search (r : RE) (s : List Char) : Bool :=
  (RE.concat (RE.star RE.anyChar) (RE.concat r (RE.star RE.anyChar))).matchList s

/-- Consume postfix repetition operators after an atom. -/
def applyRepeatOps : RE → List Char → RE × List Char
  | r, '*' :: rest => applyRepeatOps (RE.star r) rest
  | r, '+' :: rest => applyRepeatOps (RE.concat r (RE.star r)) rest
  | r, '?' :: rest => applyRepeatOps (RE.alt r RE.epsilon) rest
  | r, rest => (r, rest)

mutual

/-- Parse an alternation (`a|b|c`).  Fuel guarantees termination. -/
def parseAlt : Nat → List Char → Except String (RE × List Char)
  | 0, _ => Except.error "pattern too large"
  | fuel + 1, cs => do
      let (r, rest) ← parseConcat fuel cs
      match rest with
      | '|' :: rest2 => do
          let (r2, rest3) ← parseAlt fuel rest2
          pure (RE.alt r r2, rest3)
      | _ => pure (r, rest)

/-- Parse a (possibly empty) concatenation of repeated atoms. -/
def parseConcat : Nat → List Char → Except String (RE × List Char)
  | 0, _ => Except.error "pattern too large"
  | fuel + 1, cs =>
      match cs with
      | [] => pure (RE.epsilon, ([] : List Char))
      | ')' :: _ => pure (RE.epsilon, cs)
      | '|' :: _ => pure (RE.epsilon, cs)
      | _ => do
          let (r, rest) ← parseRepeat fuel cs
          let (r2, rest2) ← parseConcat fuel rest
          pure (RE.concat r r2, rest2)

/-- Parse one atom together with its postfix repetition operators. -/
def parseRepeat : Nat → List Char → Except String (RE × List Char)
  | 0, _ => Except.error "pattern too large"
  | fuel + 1, cs => do
      let (r, rest) ← parseAtom fuel cs
      pure (applyRepeatOps r rest)

/-- Parse a single atom: a group, `.`, an escape, or a literal character. -/
def parseAtom : Nat → List Char → Except String (RE × List Char)
  | 0, _ => Except.error "pattern too large"
  | fuel + 1, cs =>
      match cs with
      | [] => Except.error "unexpected end of pattern"
      | '(' :: rest => do
          let (r, rest2) ← parseAlt fuel rest
          match rest2 with
          | ')' :: rest3 => pure (r, rest3)
          | _ => Except.error "unclosed group"
      | ')' :: _ => Except.error "unopened group"
      | '|' :: _ => Except.error "unexpected alternation"
      | '*' :: _ => Except.error "repetition operator missing an expression"
      | '+' :: _ => Except.error "repetition operator missing an expression"
      | '?' :: _ => Except.error "repetition operator missing an expression"
      | '\\' :: c :: rest => pure (RE.char c, rest)
      | '\\' :: [] => Except.error "incomplete escape sequence"
      | '[' :: _ => Except.error "unsupported character class"
      | c :: rest => pure (RE.char c, rest)

end

/-- Compile a pattern string, the model of `Regex::new`: parse the whole
input, failing on leftover characters (an unbalanced close paren). -/
def parseRE (s : String) : Except String RE :=
  match parseAlt (4 * s.length + 8) s.data with
  | Except.ok (r, []) => Except.ok r
  | Except.ok (_, _ :: _) => Except.error "unopened group"
  | Except.error e => Except.error e

/-- A compiled regex as produced by the `regex` crate: the original
source text together with the compiled program; the crate only ever
produces values whose program is the compilation of their source. -/
structure Regex where
  source : String
  prog : RE
  hwf : parseRE source = Except.ok prog

/-- `Regex::new`: compile a pattern string or report the compile error. -/
def Regex.new (s : String) : Except String Regex :=
  match h : parseRE s with
  | Except.ok r => Except.ok ⟨s, r, h⟩
  | Except.error e => Except.error e

/-- `Regex::as_str`: the exact source text the regex was compiled from. -/
def Regex.as_str (re : Regex) : String := re.source

/-- `Regex::is_match`: unanchored match of the pattern against a string. -/
def Regex.is_match (re : Regex) (link : String) : Bool :=
  RE.search re.prog link.data

/-- The configuration struct of `src/config.rs` (`cache_timeout` is a
`u64`; no operation of this core can overflow it, so it is a `Nat`). -/
structure Config where
  follow_web_links : Bool
  traverse_parent_directories : Bool
  exclude : List Regex
  user_agent : String
  cache_timeout : Nat

/-- Modelled from the spec: the tool name from build metadata
(`env!("CARGO_PKG_NAME")`; the package manifest is not part of this
core's source). -/
def CARGO_PKG_NAME : String := "mdbook-linkcheck"

/-- Modelled from the spec: the tool version from build metadata
(`env!("CARGO_PKG_VERSION")`; the package manifest is not part of this
core's source). -/
def CARGO_PKG_VERSION : String := "0.7.7"

/-- `Config::DEFAULT_CACHE_TIMEOUT.as_secs()`: `60 * 60 * 12` seconds. -/
def DEFAULT_CACHE_TIMEOUT_SECS : Nat := 60 * 60 * 12

/-- `Config::DEFAULT_USER_AGENT`: tool name, a hyphen, tool version. -/
def DEFAULT_USER_AGENT : String := CARGO_PKG_NAME ++ "-" ++ CARGO_PKG_VERSION

/-- The free function `default_cache_timeout` used by the deserializer. -/
def default_cache_timeout : Nat := DEFAULT_CACHE_TIMEOUT_SECS

/-- The free function `default_user_agent` used by the deserializer and
by `Default::default`. -/
def default_user_agent : String := DEFAULT_USER_AGENT

/-- `impl Default for Config`. -/
def Config.default : Config :=
  ⟨false, false, [], default_user_agent, DEFAULT_CACHE_TIMEOUT_SECS⟩

/-- `Config::should_skip`: does any exclude pattern match the link? -/
def Config.should_skip (c : Config) (link : String) : Bool :=
  c.exclude.any fun pat => pat.is_match link

/-- `impl PartialEq for Config`: scalar fields, exclude length, and the
zipped exclude lists compared entrywise by `as_str`. -/
def Config.eqConfig (a b : Config) : Bool :=
  (a.follow_web_links == b.follow_web_links)
    && (a.traverse_parent_directories == b.traverse_parent_directories)
    && (a.exclude.length == b.exclude.length)
    && (a.user_agent == b.user_agent)
    && (a.cache_timeout == b.cache_timeout)
    && ((a.exclude.zip b.exclude).all fun p => p.1.as_str == p.2.as_str)

/-- `regex_serde::serialize`: emit each pattern's exact source text. -/
def regexSerdeSerialize (re : List Regex) : List String :=
  re.map Regex.as_str

/-- `regex_serde::deserialize`: compile each string in order, failing on
the first pattern that does not compile and keeping its error. -/
def regexSerdeDeserialize : List String → Except String (List Regex)
  | [] => Except.ok []
  | p :: ps => do
      let re ← Regex.new p
      let rest ← regexSerdeDeserialize ps
      pure (re :: rest)

/-- The structured (already format-parsed) input of `Config`'s serde
deserializer: every recognized key is optional. -/
structure RawConfig where
  follow_web_links : Option Bool
  traverse_parent_directories : Option Bool
  exclude : Option (List String)
  user_agent : Option String
  cache_timeout : Option Nat

/-- The derived serde deserializer of `Config` on structured input:
absent fields fall back to their defaults (`#[serde(default)]` plus the
field-level default functions), and the `exclude` strings are compiled
through `regex_serde::deserialize`. -/
def deserializeConfig (raw : RawConfig) : Except String Config := do
  let ex ← regexSerdeDeserialize (raw.exclude.getD [])
  pure ⟨raw.follow_web_links.getD false,
        raw.traverse_parent_directories.getD false,
        ex,
        raw.user_agent.getD default_user_agent,
        raw.cache_timeout.getD default_cache_timeout⟩

/-- Structured output of `Config`'s serde serializer: every field is
present, `exclude` as the list of pattern source strings. -/
structure RawConfigE where
  follow_web_links : Bool
  traverse_parent_directories : Bool
  exclude : List String
  user_agent : String
  cache_timeout : Nat

/-- The derived serde serializer of `Config` to structured output. -/
def serializeConfig (c : Config) : RawConfigE :=
  ⟨c.follow_web_links, c.traverse_parent_directories,
   regexSerdeSerialize c.exclude, c.user_agent, c.cache_timeout⟩

/-- View fully explicit structured data as deserializer input. -/
def RawConfigE.toRaw (r : RawConfigE) : RawConfig :=
  ⟨some r.follow_web_links, some r.traverse_parent_directories,
   some r.exclude, some r.user_agent, some r.cache_timeout⟩

/-- TOML basic-string escaping of one character. -/
def tomlEscapeChar (c : Char) : String :=
  if c = '"' then "\\\""
  else if c = '\\' then "\\\\"
  else if c = '\n' then "\\n"
  else if c = '\t' then "\\t"
  else if c = '\r' then "\\r"
  else c.toString

/-- A TOML basic string literal. -/
def tomlString (s : String) : String :=
  "\"" ++ String.join (s.data.map tomlEscapeChar) ++ "\""

/-- A TOML boolean. -/
def tomlBool (b : Bool) : String := if b then "true" else "false"

/-- A TOML inline array of strings. -/
def tomlStringArray (xs : List String) : String :=
  "[" ++ String.intercalate ", " (xs.map tomlString) ++ "]"

/-- The canonical textual form of fully explicit structured data: the
kebab-case keys in declaration order, one `key = value` line each. -/
def RawConfigE.canonicalToml (r : RawConfigE) : String :=
  "follow-web-links = " ++ tomlBool r.follow_web_links ++ "\n"
    ++ "traverse-parent-directories = " ++ tomlBool r.traverse_parent_directories ++ "\n"
    ++ "exclude = " ++ tomlStringArray r.exclude ++ "\n"
    ++ "user-agent = " ++ tomlString r.user_agent ++ "\n"
    ++ "cache-timeout = " ++ toString r.cache_timeout ++ "\n"

/-- `toml::to_string` on a `Config`: the serializer emits the fields in
declaration order under their kebab-case names. -/
def serializeConfigToml (c : Config) : String :=
  (serializeConfig c).canonicalToml

/-- Build a regex from a pattern known to compile, falling back to the
empty pattern (which always compiles) otherwise. -/
def forceRegex (s : String) : Regex :=
  match h : parseRE s with
  | Except.ok r => ⟨s, r, h⟩
  | Except.error _ => ⟨"", RE.epsilon, rfl⟩

/-- The regex of the repository's tests, compiled from `google\.com`. -/
def googleRegex : Regex := forceRegex "google\\.com"

/-- A configuration whose only exclude pattern is `google\.com`. -/
def cfgGoogle : Config :=
  ⟨false, false, [googleRegex], DEFAULT_USER_AGENT, DEFAULT_CACHE_TIMEOUT_SECS⟩

/-- The same configuration value written with different expressions. -/
def cfgGoogle' : Config :=
  ⟨false, false, [forceRegex "google\\.com"], default_user_agent, 43200⟩

/-- Two distinct exclude patterns for the order-sensitivity example. -/
def regexAAA : Regex := forceRegex "aaa"

/-- Second distinct exclude pattern for the order-sensitivity example. -/
def regexBBB : Regex := forceRegex "bbb"

/-- A configuration holding the two patterns in one order. -/
def cfgOrderAB : Config :=
  ⟨false, false, [regexAAA, regexBBB], DEFAULT_USER_AGENT, DEFAULT_CACHE_TIMEOUT_SECS⟩

/-- The same configuration with the two patterns swapped. -/
def cfgOrderBA : Config :=
  ⟨false, false, [regexBBB, regexAAA], DEFAULT_USER_AGENT, DEFAULT_CACHE_TIMEOUT_SECS⟩

/-- The structured form of the test input of `src/config.rs`. -/
def testRawE : RawConfigE :=
  ⟨true, true, ["google\\.com"], "Internet Explorer", 3600⟩

/-- The configuration the test input denotes. -/
def testConfig : Config :=
  ⟨true, true, [googleRegex], "Internet Explorer", 3600⟩

/-- The literal TOML text of the repository's tests. -/
def CONFIG_TEXT : String :=
  "follow-web-links = true\ntraverse-parent-directories = true\nexclude = [\"google\\\\.com\"]\nuser-agent = \"Internet Explorer\"\ncache-timeout = 3600\n"

/-- Structured input whose exclude list holds the invalid pattern `(`. -/
def rawBadPattern : RawConfig := ⟨none, none, some ["("], none, none⟩

/-- Structured input with every field absent. -/
def rawEmpty : RawConfig := ⟨none, none, none, none, none⟩

theorem Regex.new_source (r : Regex) : Regex.new r.source = Except.ok r := by
  unfold Regex.new
  split
  · rename_i a h
    have hwf := r.hwf
    rw [h] at hwf
    obtain rfl : a = r.prog := (Except.ok.injEq _ _).mp hwf
    obtain ⟨s, p, hp⟩ := r
    rfl
  · rename_i e h
    rw [r.hwf] at h
    cases h

theorem Regex.new_ok_source (s : String) (re : Regex)
    (h : Regex.new s = Except.ok re) : re.as_str = s := by
  unfold Regex.new at h
  split at h
  · cases h
    rfl
  · cases h

theorem Regex.new_error_iff (s e : String) :
    Regex.new s = Except.error e ↔ parseRE s = Except.error e := by
  unfold Regex.new
  split <;> rename_i h <;> simp_all

theorem Regex.is_match_congr (r1 r2 : Regex) (h : r1.as_str = r2.as_str)
    (s : String) : r1.is_match s = r2.is_match s := by
  have h1 := r1.hwf
  rw [show r1.source = r2.source from h, r2.hwf] at h1
  obtain hprog : r2.prog = r1.prog := (Except.ok.injEq _ _).mp h1
  unfold Regex.is_match
  rw [hprog]

theorem regexSerde_roundtrip (l : List Regex) :
    regexSerdeDeserialize (regexSerdeSerialize l) = Except.ok l := by
  induction l with
  | nil => rfl
  | cons r rest ih =>
      simp only [regexSerdeSerialize, List.map_cons, regexSerdeDeserialize]
      rw [show Regex.new r.as_str = Except.ok r from Regex.new_source r]
      simp only [regexSerdeSerialize] at ih
      rw [ih]
      rfl

theorem regexSerdeDeserialize_sources (l : List String) (rs : List Regex)
    (h : regexSerdeDeserialize l = Except.ok rs) : regexSerdeSerialize rs = l := by
  induction l generalizing rs with
  | nil =>
      cases h
      rfl
  | cons p ps ih =>
      unfold regexSerdeDeserialize at h
      cases hn : Regex.new p with
      | error e => rw [hn] at h; cases h
      | ok re =>
          rw [hn] at h
          cases hr : regexSerdeDeserialize ps with
          | error e => rw [hr] at h; cases h
          | ok rest =>
              rw [hr] at h
              cases h
              simp only [regexSerdeSerialize, List.map_cons]
              rw [Regex.new_ok_source p re hn]
              have := ih rest hr
              simp only [regexSerdeSerialize] at this
              rw [this]

theorem regexSerdeDeserialize_err_carries (l : List String) (e : String)
    (h : regexSerdeDeserialize l = Except.error e) :
    ∃ s ∈ l, parseRE s = Except.error e := by
  induction l with
  | nil => cases h
  | cons p ps ih =>
      unfold regexSerdeDeserialize at h
      cases hn : Regex.new p with
      | error e' =>
          rw [hn] at h
          cases h
          exact ⟨p, List.mem_cons_self p ps, (Regex.new_error_iff p e).mp hn⟩
      | ok re =>
          rw [hn] at h
          cases hr : regexSerdeDeserialize ps with
          | error e' =>
              rw [hr] at h
              cases h
              obtain ⟨s, hs, hps⟩ := ih hr
              exact ⟨s, List.mem_cons_of_mem p hs, hps⟩
          | ok rest => rw [hr] at h; cases h

theorem regexSerdeDeserialize_err_exists (l : List String) :
    (∃ e, regexSerdeDeserialize l = Except.error e) ↔
      ∃ s ∈ l, ∃ e, parseRE s = Except.error e := by
  induction l with
  | nil => simp [regexSerdeDeserialize]
  | cons p ps ih =>
      constructor
      · rintro ⟨e, h⟩
        obtain ⟨s, hs, hps⟩ := regexSerdeDeserialize_err_carries (p :: ps) e h
        exact ⟨s, hs, e, hps⟩
      · rintro ⟨s, hs, e, hps⟩
        rcases List.mem_cons.mp hs with rfl | hs'
        · refine ⟨e, ?_⟩
          unfold regexSerdeDeserialize
          rw [(Regex.new_error_iff s e).mpr hps]
          rfl
        · cases hn : Regex.new p with
          | error e' =>
              refine ⟨e', ?_⟩
              unfold regexSerdeDeserialize
              rw [hn]
              rfl
          | ok re =>
              obtain ⟨e'', h''⟩ := ih.mpr ⟨s, hs', e, hps⟩
              refine ⟨e'', ?_⟩
              unfold regexSerdeDeserialize
              rw [hn, h'']
              rfl

theorem deserializeConfig_error_iff (raw : RawConfig) (e : String) :
    deserializeConfig raw = Except.error e ↔
      regexSerdeDeserialize (raw.exclude.getD []) = Except.error e := by
  unfold deserializeConfig
  cases hr : regexSerdeDeserialize (raw.exclude.getD []) with
  | error e' => simp [Except.bind]
  | ok l => simp [Except.bind]

theorem deserializeConfig_ok_iff (raw : RawConfig) (c : Config) :
    deserializeConfig raw = Except.ok c ↔
      ∃ l, regexSerdeDeserialize (raw.exclude.getD []) = Except.ok l
        ∧ c = ⟨raw.follow_web_links.getD false,
               raw.traverse_parent_directories.getD false, l,
               raw.user_agent.getD default_user_agent,
               raw.cache_timeout.getD default_cache_timeout⟩ := by
  unfold deserializeConfig
  cases hr : regexSerdeDeserialize (raw.exclude.getD []) with
  | error e' => simp [Except.bind]
  | ok l =>
      show Except.bind (Except.ok l) _ = _ ↔ _
      simp only [Except.bind]
      constructor
      · intro h
        exact ⟨l, rfl, ((Except.ok.injEq _ _).mp h).symm⟩
      · rintro ⟨l', hl', rfl⟩
        obtain rfl : l = l' := (Except.ok.injEq _ _).mp hl'
        rfl

theorem zipAll_sources_eq_forall₂ (l1 l2 : List Regex) (hlen : l1.length = l2.length) :
    (((l1.zip l2).all fun p => p.1.as_str == p.2.as_str) = true ↔
      List.Forall₂ (fun x y : Regex => x.as_str = y.as_str) l1 l2) := by
  rw [List.forall₂_iff_zip]
  simp only [List.all_eq_true, beq_iff_eq]
  constructor
  · intro h
    exact ⟨hlen, fun hab => h _ hab⟩
  · rintro ⟨_, h⟩ p hp
    obtain ⟨a, b⟩ := p
    exact h hp

theorem eqConfig_iff_forall₂ (a b : Config) :
    Config.eqConfig a b = true ↔
      a.follow_web_links = b.follow_web_links
      ∧ a.traverse_parent_directories = b.traverse_parent_directories
      ∧ a.user_agent = b.user_agent
      ∧ a.cache_timeout = b.cache_timeout
      ∧ List.Forall₂ (fun x y : Regex => x.as_str = y.as_str) a.exclude b.exclude := by
  unfold Config.eqConfig
  simp only [Bool.and_eq_true, beq_iff_eq]
  constructor
  · rintro ⟨⟨⟨⟨⟨h1, h2⟩, hlen⟩, hua⟩, hct⟩, hzip⟩
    exact ⟨h1, h2, hua, hct,
      (zipAll_sources_eq_forall₂ a.exclude b.exclude hlen).mp (by simpa using hzip)⟩
  · rintro ⟨h1, h2, hua, hct, hall⟩
    have hlen := hall.length_eq
    exact ⟨⟨⟨⟨⟨h1, h2⟩, hlen⟩, hua⟩, hct⟩,
      by simpa using (zipAll_sources_eq_forall₂ a.exclude b.exclude hlen).mpr hall⟩

theorem eqConfig_refl (c : Config) : Config.eqConfig c c = true := by
  rw [eqConfig_iff_forall₂]
  refine ⟨rfl, rfl, rfl, rfl, ?_⟩
  induction c.exclude with
  | nil => exact List.Forall₂.nil
  | cons r rest ih => exact List.Forall₂.cons rfl ih

theorem perm_any {α : Type} (p : α → Bool) {l1 l2 : List α} (h : l1.Perm l2) :
    l1.any p = l2.any p := by
  induction h with
  | nil => rfl
  | cons x _ ih => simp [List.any_cons, ih]
  | swap x y l => simp [List.any_cons, Bool.or_left_comm]
  | trans _ _ ih1 ih2 => rw [ih1, ih2]

theorem forall₂_any_is_match {l1 l2 : List Regex}
    (h : List.Forall₂ (fun x y : Regex => x.as_str = y.as_str) l1 l2) (s : String) :
    (l1.any fun p => p.is_match s) = l2.any fun p => p.is_match s := by
  induction h with
  | nil => rfl
  | cons hxy _ ih =>
      rename_i x y _ _ _
      simp only [List.any_cons, ih, Regex.is_match_congr x y hxy s]


/-- C1: serializing any Configuration and deserializing the result
succeeds and yields a Configuration equal to the original under the
implemented equality (scalar fields equal, exclude sequences equal
length and pairwise equal by original pattern source text), because
serialization emits each matcher's exact source text and
deserialization recompiles each string. -/
theorem serialize_then_deserialize_eq (c : Config) :
    ∃ c', deserializeConfig (serializeConfig c).toRaw = Except.ok c'
      ∧ Config.eqConfig c c' = true := by
  refine ⟨c, ?_, eqConfig_refl c⟩
  rw [deserializeConfig_ok_iff]
  refine ⟨c.exclude, ?_, ?_⟩
  · show regexSerdeDeserialize (regexSerdeSerialize c.exclude) = _
    exact regexSerde_roundtrip c.exclude
  · rfl

/-- C3: `should_skip` returns true iff at least one pattern in the
exclude list matches the link (unanchored match); it is a pure function
of the configuration and the link. -/
theorem should_skip_iff_exists_match (c : Config) (link : String) :
    c.should_skip link = true ↔ ∃ pat ∈ c.exclude, pat.is_match link = true := by
  simp [Config.should_skip, List.any_eq_true]

/-- C4: two Configurations are equal iff the four scalar fields are
equal and the exclude sequences have equal length with entries pairwise
equal by original pattern source text in sequence order; in particular
the same two patterns in swapped order give unequal Configurations. -/
theorem eqConfig_characterization :
    (∀ a b : Config, Config.eqConfig a b = true ↔
      (a.follow_web_links = b.follow_web_links
        ∧ a.traverse_parent_directories = b.traverse_parent_directories
        ∧ a.user_agent = b.user_agent
        ∧ a.cache_timeout = b.cache_timeout
        ∧ a.exclude.length = b.exclude.length
        ∧ ∀ (i : Nat) (h1 : i < a.exclude.length) (h2 : i < b.exclude.length),
            (a.exclude.get ⟨i, h1⟩).as_str = (b.exclude.get ⟨i, h2⟩).as_str))
    ∧ Config.eqConfig cfgOrderAB cfgOrderBA = false := by
  constructor
  · intro a b
    rw [eqConfig_iff_forall₂]
    constructor
    · rintro ⟨h1, h2, h3, h4, h5⟩
      rw [List.forall₂_iff_get] at h5
      exact ⟨h1, h2, h3, h4, h5.1, h5.2⟩
    · rintro ⟨h1, h2, h3, h4, hlen, hidx⟩
      exact ⟨h1, h2, h3, h4, List.forall₂_iff_get.mpr ⟨hlen, hidx⟩⟩
  · rfl

/-- C5: `default()` yields follow_web_links false, traverse_parent_directories
false, an empty exclude list, the process-wide constant user agent
`<tool-name>-<tool-version>` and a cache timeout of exactly 43200
seconds, and the deserializer's per-field default functions reuse the
same constants. -/
theorem default_config_fields :
    Config.default.follow_web_links = false
    ∧ Config.default.traverse_parent_directories = false
    ∧ Config.default.exclude = []
    ∧ Config.default.user_agent = CARGO_PKG_NAME ++ "-" ++ CARGO_PKG_VERSION
    ∧ Config.default.cache_timeout = 43200
    ∧ Config.default.user_agent = default_user_agent
    ∧ default_user_agent = DEFAULT_USER_AGENT
    ∧ Config.default.cache_timeout = default_cache_timeout
    ∧ default_cache_timeout = DEFAULT_CACHE_TIMEOUT_SECS :=
  ⟨rfl, rfl, rfl, rfl, rfl, rfl, rfl, rfl, rfl⟩

/-- C9: with the single exclude pattern `google\.com`, `should_skip`
accepts `http://google.com/page` (the pattern occurs inside the link:
matching is unanchored) and rejects `http://example.com`. -/
theorem should_skip_google_examples :
    cfgGoogle.should_skip "http://google.com/page" = true
    ∧ cfgGoogle.should_skip "http://example.com" = false :=
  ⟨rfl, rfl⟩

/-- C2: deserialization fails exactly when some exclude string does not
compile as a pattern (the only failure path of this core), the reported
error is the underlying pattern-compilation failure of an offending
string, and no Configuration is produced on failure. -/
theorem deserialize_error_characterization (raw : RawConfig) :
    ((∃ e, deserializeConfig raw = Except.error e) ↔
      ∃ s ∈ raw.exclude.getD [], ∃ e, parseRE s = Except.error e)
    ∧ ∀ e, deserializeConfig raw = Except.error e →
        ∃ s ∈ raw.exclude.getD [], parseRE s = Except.error e := by
  constructor
  · constructor
    · rintro ⟨e, h⟩
      exact (regexSerdeDeserialize_err_exists _).mp
        ⟨e, (deserializeConfig_error_iff raw e).mp h⟩
    · intro hx
      obtain ⟨e, he⟩ := (regexSerdeDeserialize_err_exists _).mpr hx
      exact ⟨e, (deserializeConfig_error_iff raw e).mpr he⟩
  · intro e h
    exact regexSerdeDeserialize_err_carries _ e
      ((deserializeConfig_error_iff raw e).mp h)

/-- Witness for C2 at the concrete invalid pattern `(`. -/
theorem deserialize_error_characterization_witness :
    deserializeConfig rawBadPattern = Except.error "unclosed group"
    ∧ ∃ s ∈ rawBadPattern.exclude.getD [], parseRE s = Except.error "unclosed group" :=
  ⟨rfl, (deserialize_error_characterization rawBadPattern).2 "unclosed group" rfl⟩

/-- C6: every field absent from the structured input is filled with its
documented default, and deserializing input with every field absent
yields exactly `default()`. -/
theorem deserialize_absent_fields_default :
    (∀ (raw : RawConfig) (c : Config), deserializeConfig raw = Except.ok c →
      (raw.follow_web_links = none → c.follow_web_links = false)
      ∧ (raw.traverse_parent_directories = none → c.traverse_parent_directories = false)
      ∧ (raw.exclude = none → c.exclude = [])
      ∧ (raw.user_agent = none → c.user_agent = DEFAULT_USER_AGENT)
      ∧ (raw.cache_timeout = none → c.cache_timeout = DEFAULT_CACHE_TIMEOUT_SECS))
    ∧ deserializeConfig rawEmpty = Except.ok Config.default := by
  constructor
  · intro raw c h
    rw [deserializeConfig_ok_iff] at h
    obtain ⟨l, hl, rfl⟩ := h
    refine ⟨?_, ?_, ?_, ?_, ?_⟩
    · intro hx
      rw [hx]
      rfl
    · intro hx
      rw [hx]
      rfl
    · intro hx
      rw [hx] at hl
      simp only [Option.getD_none, regexSerdeDeserialize, Except.ok.injEq] at hl
      exact hl.symm
    · intro hx
      rw [hx]
      rfl
    · intro hx
      rw [hx]
      rfl
  · rfl

/-- Witness for C6 at the all-absent input. -/
theorem deserialize_absent_fields_default_witness :
    rawEmpty.user_agent = none ∧ Config.default.user_agent = DEFAULT_USER_AGENT :=
  ⟨rfl, (deserialize_absent_fields_default.1 rawEmpty Config.default rfl).2.2.2.1 rfl⟩

/-- C7: reserializing a Configuration deserialized from fully explicit
structured input reproduces the canonical text of that input byte for
byte, field order included. -/
theorem reserialize_canonical (r : RawConfigE) (c : Config)
    (h : deserializeConfig r.toRaw = Except.ok c) :
    serializeConfigToml c = r.canonicalToml := by
  rw [deserializeConfig_ok_iff] at h
  obtain ⟨l, hl, rfl⟩ := h
  have hsrc : regexSerdeSerialize l = r.exclude := by
    simpa [RawConfigE.toRaw] using regexSerdeDeserialize_sources _ l hl
  show (RawConfigE.mk r.follow_web_links r.traverse_parent_directories
      (regexSerdeSerialize l) r.user_agent r.cache_timeout).canonicalToml
    = r.canonicalToml
  rw [hsrc]

/-- Witness for C7 at the literal test input of `src/config.rs`. -/
theorem reserialize_canonical_witness :
    deserializeConfig testRawE.toRaw = Except.ok testConfig
    ∧ serializeConfigToml testConfig = testRawE.canonicalToml
    ∧ testRawE.canonicalToml = CONFIG_TEXT :=
  ⟨rfl, reserialize_canonical testRawE testConfig rfl, rfl⟩

/-- C8: permuting the exclude list never changes the result of
`should_skip`: pattern order affects only performance. -/
theorem should_skip_perm_invariant (c : Config) (l : List Regex)
    (h : l.Perm c.exclude) (s : String) :
    Config.should_skip
        ⟨c.follow_web_links, c.traverse_parent_directories, l,
         c.user_agent, c.cache_timeout⟩ s
      = c.should_skip s := by
  unfold Config.should_skip
  exact perm_any _ h

/-- Witness for C8 at a concrete two-element swap. -/
theorem should_skip_perm_invariant_witness :
    cfgOrderBA.should_skip "xaaay" = cfgOrderAB.should_skip "xaaay" :=
  should_skip_perm_invariant cfgOrderAB [regexBBB, regexAAA]
    (List.Perm.swap regexAAA regexBBB []) "xaaay"

/-- C10: `should_skip` respects the implemented Configuration equality:
equal Configurations (exclude entries compared only by original pattern
source text) give the same `should_skip` verdict on every link. -/
theorem should_skip_respects_eqConfig (c1 c2 : Config)
    (h : Config.eqConfig c1 c2 = true) (s : String) :
    c1.should_skip s = c2.should_skip s := by
  obtain ⟨-, -, -, -, hall⟩ := (eqConfig_iff_forall₂ c1 c2).mp h
  unfold Config.should_skip
  exact forall₂_any_is_match hall s

/-- Witness for C10 at two differently written but equal configurations. -/
theorem should_skip_respects_eqConfig_witness :
    Config.eqConfig cfgGoogle cfgGoogle' = true
    ∧ cfgGoogle.should_skip "http://google.com/page"
        = cfgGoogle'.should_skip "http://google.com/page" :=
  ⟨rfl, should_skip_respects_eqConfig cfgGoogle cfgGoogle' rfl "http://google.com/page"⟩

/-- Witness for C1 at a concrete configuration. -/
theorem serialize_then_deserialize_eq_witness :
    ∃ c', deserializeConfig (serializeConfig cfgGoogle).toRaw = Except.ok c'
      ∧ Config.eqConfig cfgGoogle c' = true :=
  serialize_then_deserialize_eq cfgGoogle

/-- Witness for C3 at a concrete configuration and link. -/
theorem should_skip_iff_exists_match_witness :
    cfgGoogle.should_skip "http://google.com/page" = true
      ↔ ∃ pat ∈ cfgGoogle.exclude, pat.is_match "http://google.com/page" = true :=
  should_skip_iff_exists_match cfgGoogle "http://google.com/page"

/-- Witness for C4: the concrete order-sensitivity instance. -/
theorem eqConfig_characterization_witness :
    Config.eqConfig cfgOrderAB cfgOrderBA = false :=
  eqConfig_characterization.2
